import Mathlib

/-!
A shallow embedding of the RA6963 graphic-LCD driver (src/RA6963.py).

The driver is a façade over a parallel-bus C library (`parallel.so`): each
Python method mutates a handful of instance attributes and issues calls to
the bus primitives `writedata`, `writecommand`, `readdata`, `readregister`
and `gpioWrite`.  Here the instance attributes become the `ChipState`
structure and every bus call becomes an event in a trace (`List Ev`), so a
method is a pure function from a state (plus arguments, plus the bytes the
chip would put on the bus for reads) to a new state, a trace, and possibly a
returned byte.  The wrapped C functions declare no restype, so ctypes gives
each call an int result (default c_int) of unspecified value; where the
source stores such a result (cursormove), the model takes that int as an
extra argument.  The Python NameError that readdecrement raises on an
undefined module constant is modelled with `Except PyErr`.

The bus engine itself lives in `parallel.so`, which is not part of the
Python source; the two bus-level read primitives that claim C7 needs are
modelled from the spec at the end of the definitions section.
-/

namespace RA6963

/-- Command opcodes, the module-level constants of RA6963.py (lines 116-142). -/
def LCD_SETCURSORPOINTER : Nat := 0x21

def LCD_SETOFFSETREGISTER : Nat := 0x22

def LCD_SETADDRESSPOINTER : Nat := 0x24

def LCD_SETTEXTHOMEADDRESS : Nat := 0x40

def LCD_SETTEXTAREA : Nat := 0x41

def LCD_SETGRAPHICHOMEADDRESS : Nat := 0x42

def LCD_SETGRAPHICAREA : Nat := 0x43

def LCD_MODESET : Nat := 0x80

def LCD_DISPLAYMODE : Nat := 0x90

def LCD_CURSORPATTERNSELECT : Nat := 0xA0

def LCD_DATAWRITEINCREMENT : Nat := 0xC0

def LCD_DATAREADINCREMENT : Nat := 0xC1

def LCD_DATAWRITEDECREMENT : Nat := 0xC2

def LCD_DATAEREADDECREMENT : Nat := 0xC2

def LCD_DATAWRITENONVARIABLE : Nat := 0xC4

def LCD_DATAREADNONVARIABLE : Nat := 0xC4

def LCD_SETDATAAUTOWRITE : Nat := 0xB0

def LCD_SETDATAAUTOREAD : Nat := 0xB1

def LCD_AUTORESET : Nat := 0xB2

def LCD_SCREENPEEK : Nat := 0xE0

def LCD_SCREENCOPY : Nat := 0xE8

def LCD_BITRESET : Nat := 0xF0

def LCD_BITSET : Nat := 0xF8

def LCD_SCREENREVERSE : Nat := 0xD0

def LCD_BLINKTIME : Nat := 0x50

def LCD_CURSORAUTOMOVING : Nat := 0x60

def LCD_CGROMFONTSELECT : Nat := 0x70

/-- Mode-set option bits (lines 145-149). -/
def LCD_OR : Nat := 0x00

def LCD_EXOR : Nat := 0x01

def LCD_AND : Nat := 0x03

def LCD_TEXTATTRIBUTE : Nat := 0x04

def LCD_EXTERNALCGROM : Nat := 0x08

/-- Display-mode option bits (lines 152-155). -/
def LCD_CURSORBLINK : Nat := 0x01

def LCD_CURSORON : Nat := 0x02

def LCD_TEXTON : Nat := 0x04

def LCD_GRAPHICON : Nat := 0x08

/-- The module's command-constant namespace, exactly the names bound at the
top of RA6963.py: Python resolves an identifier against this table, and an
absent name raises NameError.  Note the misspelt LCD_DATAEREADDECREMENT. -/
def moduleConsts : List (String × Nat) :=
  [("LCD_SETCURSORPOINTER", 0x21),
   ("LCD_SETOFFSETREGISTER", 0x22),
   ("LCD_SETADDRESSPOINTER", 0x24),
   ("LCD_SETTEXTHOMEADDRESS", 0x40),
   ("LCD_SETTEXTAREA", 0x41),
   ("LCD_SETGRAPHICHOMEADDRESS", 0x42),
   ("LCD_SETGRAPHICAREA", 0x43),
   ("LCD_MODESET", 0x80),
   ("LCD_DISPLAYMODE", 0x90),
   ("LCD_CURSORPATTERNSELECT", 0xA0),
   ("LCD_DATAWRITEINCREMENT", 0xC0),
   ("LCD_DATAREADINCREMENT", 0xC1),
   ("LCD_DATAWRITEDECREMENT", 0xC2),
   ("LCD_DATAEREADDECREMENT", 0xC2),
   ("LCD_DATAWRITENONVARIABLE", 0xC4),
   ("LCD_DATAREADNONVARIABLE", 0xC4),
   ("LCD_SETDATAAUTOWRITE", 0xB0),
   ("LCD_SETDATAAUTOREAD", 0xB1),
   ("LCD_AUTORESET", 0xB2),
   ("LCD_SCREENPEEK", 0xE0),
   ("LCD_SCREENCOPY", 0xE8),
   ("LCD_BITRESET", 0xF0),
   ("LCD_BITSET", 0xF8),
   ("LCD_SCREENREVERSE", 0xD0),
   ("LCD_BLINKTIME", 0x50),
   ("LCD_CURSORAUTOMOVING", 0x60),
   ("LCD_CGROMFONTSELECT", 0x70)]

/-- Resolution of a module-level command name, as Python's name lookup does. -/
def lookupConst (n : String) : Option Nat := moduleConsts.lookup n

/-- Python runtime errors the embedded methods can surface. -/
inductive PyErr where
  | nameError
  | unsupportedOperation
  deriving DecidableEq

/-- One call to the C bus library, as observed at the library boundary:
`wdata bs` is writedata with the byte block `bs`, `wcmd b` is writecommand,
`rdata n` is readdata of `n` bytes, `rreg` is readregister, `gpio p v` is
gpioWrite, and `warn` is the alignment warning printed by startup. -/
inductive Ev where
  | wdata : List Nat → Ev
  | wcmd : Nat → Ev
  | rdata : Nat → Ev
  | rreg : Ev
  | gpio : Nat → Nat → Ev
  | warn : Ev
  deriving DecidableEq

/-- The bytes a ctypes little-endian c_uint16 puts in memory (the value is
truncated mod 2^16): low byte first. -/
def le16 (v : Nat) : List Nat := [v % 256, v / 256 % 256]

/-- The bytes a ctypes big-endian c_uint64 puts in memory (the value is
truncated mod 2^64): most significant byte first. -/
def be64 (v : Nat) : List Nat :=
  [v / 72057594037927936 % 256, v / 281474976710656 % 256, v / 1099511627776 % 256,
   v / 4294967296 % 256, v / 16777216 % 256, v / 65536 % 256, v / 256 % 256, v % 256]

/-- Python's `v & ~f` on nonnegative ints: keeps exactly the bits of `v`
that are not set in `f`.  (`v &&& (v ^^^ f)` has bit `i` equal to
`v.testBit i && !f.testBit i`.) -/
def pyAndNot (v f : Nat) : Nat := v &&& (v ^^^ f)

/-- The instance attributes of an RA6963 object that the claims concern.
Every field always holds an int: in particular `_displaymode` stays an int
even after `cursormove` overwrites it with the c_int a writecommand call
returns (ctypes' default restype). -/
structure ChipState where
  pixx : Nat
  rst : Nat
  addr : Option (Nat × Nat × Nat)
  textaddress : Nat
  graphicaddress : Nat
  cgaddress : Nat
  _displaymode : Nat
  _modeset : Nat
  deriving DecidableEq

/-- The text/graphic/cg address triple startup loads (RA6963.py lines
224-231): the constructor-supplied addr, or the defaults 0x0000 / 0x1000 /
0x7800 when it is None. -/
def loadedAddr (s : ChipState) : Nat × Nat × Nat :=
  match s.addr with
  | none => (0x0000, 0x1000, 0x7800)
  | some a => a

/-- RA6963.startup (lines 217-254): pulse the reset line low then high,
reload the three home addresses, send text home, text area, graphic home
and graphic area as little-endian 16-bit words, then round a misaligned cg
address down with a printed warning and send the cg address shifted right
by 11 with the set-offset-register opcode. -/
def startup (s : ChipState) : ChipState × List Ev :=
  let tgc := loadedAddr s
  let cg :=
    if tgc.2.2 &&& 0x07FF > 0 then tgc.2.2 &&& 0xF800 else tgc.2.2
  ({ s with textaddress := tgc.1, graphicaddress := tgc.2.1, cgaddress := cg },
    [Ev.gpio s.rst 0, Ev.gpio s.rst 1,
     Ev.wdata (le16 tgc.1), Ev.wcmd LCD_SETTEXTHOMEADDRESS,
     Ev.wdata (le16 (s.pixx / 8)), Ev.wcmd LCD_SETTEXTAREA,
     Ev.wdata (le16 tgc.2.1), Ev.wcmd LCD_SETGRAPHICHOMEADDRESS,
     Ev.wdata (le16 (s.pixx / 8)), Ev.wcmd LCD_SETGRAPHICAREA]
    ++ (if tgc.2.2 &&& 0x07FF > 0 then [Ev.warn] else [])
    ++ [Ev.wdata (le16 (cg >>> 11)), Ev.wcmd LCD_SETOFFSETREGISTER])

/-- RA6963.settexthome (lines 441-445): store the new text home address and
send it with its opcode. -/
def settexthome (s : ChipState) (value : Nat) : ChipState × List Ev :=
  ({ s with textaddress := value },
   [Ev.wdata (le16 value), Ev.wcmd LCD_SETTEXTHOMEADDRESS])

/-- RA6963.setgraphichome (lines 448-452): store the new graphic home
address and send it with its opcode. -/
def setgraphichome (s : ChipState) (value : Nat) : ChipState × List Ev :=
  ({ s with graphicaddress := value },
   [Ev.wdata (le16 value), Ev.wcmd LCD_SETGRAPHICHOMEADDRESS])

/-- RA6963.setaddress (lines 416-419): send a 16-bit address with the
set-address-pointer opcode; no instance attribute changes. -/
def setaddress (s : ChipState) (value : Nat) : ChipState × List Ev :=
  (s, [Ev.wdata (le16 value), Ev.wcmd LCD_SETADDRESSPOINTER])

/-- RA6963.setcursor (lines 435-438): send the word 256*y + x (truncated by
ctypes to 16 bits, little-endian) followed by the set-cursor-pointer
opcode; no instance attribute changes.  Coordinates are Python ints. -/
def setcursor (s : ChipState) (xaddr yaddr : Int) : ChipState × List Ev :=
  (s, [Ev.wdata (le16 ((256 * yaddr + xaddr) % 65536).toNat),
       Ev.wcmd LCD_SETCURSORPOINTER])

/-- RA6963.definechars (lines 329-335): position the address pointer at
cgaddress + 128*8 + location*8, issue the auto-write opcode, write each
glyph as a big-endian c_uint64 (8 bytes), and issue the auto-reset opcode. -/
def definechars (s : ChipState) (chars : List Nat) (location : Nat) : ChipState × List Ev :=
  (s,
   (setaddress s (s.cgaddress + 128 * 8 + location * 8)).2
     ++ [Ev.wcmd LCD_SETDATAAUTOWRITE]
     ++ chars.map (fun i => Ev.wdata (be64 i))
     ++ [Ev.wcmd LCD_AUTORESET])

/-- The display-mode byte produced by RA6963.cursorblink line 309-310: set
or clear the cursor-blink bit. -/
def cursorblinkByte (d : Nat) (blink : Bool) : Nat :=
  if blink then d ||| LCD_CURSORBLINK else pyAndNot d LCD_CURSORBLINK

/-- RA6963.cursorblink (lines 308-311): set or clear the cursor-blink bit of
the stored display-mode value, then send the whole updated value with the
display-mode opcode. -/
def cursorblink (s : ChipState) (blink : Bool) : ChipState × List Ev :=
  ({ s with _displaymode := cursorblinkByte s._displaymode blink },
   [Ev.wcmd (LCD_DISPLAYMODE ||| cursorblinkByte s._displaymode blink)])

/-- The display-mode byte produced by RA6963.cursordisplay line 315-316: set
or clear the cursor-on bit. -/
def cursordisplayByte (d : Nat) (display : Bool) : Nat :=
  if display then d ||| LCD_CURSORON else pyAndNot d LCD_CURSORON

/-- RA6963.cursordisplay (lines 314-317): set or clear the cursor-on bit of
the stored display-mode value, then send the whole updated value with the
display-mode opcode. -/
def cursordisplay (s : ChipState) (display : Bool) : ChipState × List Ev :=
  ({ s with _displaymode := cursordisplayByte s._displaymode display },
   [Ev.wcmd (LCD_DISPLAYMODE ||| cursordisplayByte s._displaymode display)])

/-- The display-mode byte produced by RA6963.displaymode lines 339-342: set
or clear the text-on bit, then the graphic-on bit. -/
def displaymodeByte (d : Nat) (text graphic : Bool) : Nat :=
  let d1 := if text then d ||| LCD_TEXTON else pyAndNot d LCD_TEXTON
  if graphic then d1 ||| LCD_GRAPHICON else pyAndNot d1 LCD_GRAPHICON

/-- RA6963.displaymode (lines 338-343): set or clear the text-on and
graphic-on bits of the stored display-mode value, then send the whole
updated value with the display-mode opcode. -/
def displaymode (s : ChipState) (text graphic : Bool) : ChipState × List Ev :=
  ({ s with _displaymode := displaymodeByte s._displaymode text graphic },
   [Ev.wcmd (LCD_DISPLAYMODE ||| displaymodeByte s._displaymode text graphic)])

/-- RA6963.cursormove (lines 320-322): send the cursor-auto-moving opcode
with bit 0 clear (enable) or set (disable), and assign the value returned
by writecommand to the stored display-mode attribute.  The wrapper sets no
restype for writecommand, so ctypes returns a c_int of unspecified value;
that returned int `r` is taken as an argument here. -/
def cursormove (s : ChipState) (move : Bool) (r : Nat) : ChipState × List Ev :=
  if move then
    ({ s with _displaymode := r }, [Ev.wcmd (LCD_CURSORAUTOMOVING ||| 0x00)])
  else
    ({ s with _displaymode := r }, [Ev.wcmd (LCD_CURSORAUTOMOVING ||| 0x01)])

/-- The mode-set byte produced by RA6963.externalcg lines 347-348: set or
clear the external-CG-ROM bit. -/
def externalcgByte (m : Nat) (b : Bool) : Nat :=
  if b then m ||| LCD_EXTERNALCGROM else pyAndNot m LCD_EXTERNALCGROM

/-- RA6963.externalcg, continued: the method sends the updated byte with the
mode-set opcode and stores it. -/
def externalcg (s : ChipState) (b : Bool) : ChipState × List Ev :=
  ({ s with _modeset := externalcgByte s._modeset b },
   [Ev.wcmd (LCD_MODESET ||| externalcgByte s._modeset b)])

/-- RA6963.modeset (lines 359-365): clear the four logic-mode bits of the
stored mode-set byte, set the bit pattern selected by `mode` (1 = OR,
2 = EXOR, 3 = AND, 4 = text attribute), then send the whole byte with the
mode-set opcode. -/
def modesetByte (m : Nat) (mode : Nat) : Nat :=
  let m0 := pyAndNot m (LCD_OR ||| LCD_EXOR ||| LCD_AND ||| LCD_TEXTATTRIBUTE)
  let m1 := if mode = 1 then m0 ||| LCD_OR else m0
  let m2 := if mode = 2 then m1 ||| LCD_EXOR else m1
  let m3 := if mode = 3 then m2 ||| LCD_AND else m2
  if mode = 4 then m3 ||| LCD_TEXTATTRIBUTE else m3

/-- RA6963.modeset, continued: the method stores the updated byte and sends
it with the mode-set opcode. -/
def modeset (s : ChipState) (mode : Nat) : ChipState × List Ev :=
  ({ s with _modeset := modesetByte s._modeset mode },
   [Ev.wcmd (LCD_MODESET ||| modesetByte s._modeset mode)])

/-- RA6963.writeincrement (lines 474-477): write one data byte (ctypes
c_uint8 truncates the value mod 256), then issue the write-increment
opcode. -/
def writeincrement (s : ChipState) (value : Nat) : ChipState × List Ev :=
  (s, [Ev.wdata [value % 256], Ev.wcmd LCD_DATAWRITEINCREMENT])

/-- RA6963.writedecrement (lines 468-471): write one data byte, then issue
the write-decrement opcode. -/
def writedecrement (s : ChipState) (value : Nat) : ChipState × List Ev :=
  (s, [Ev.wdata [value % 256], Ev.wcmd LCD_DATAWRITEDECREMENT])

/-- RA6963.writeonvariable (lines 480-483): write one data byte, then issue
the write-nonvariable opcode. -/
def writeonvariable (s : ChipState) (value : Nat) : ChipState × List Ev :=
  (s, [Ev.wdata [value % 256], Ev.wcmd LCD_DATAWRITENONVARIABLE])

/-- RA6963.readincrement (lines 381-385): issue the read-increment opcode,
then read one byte from the bus and return it (`bus` is the byte stream the
chip supplies; the one-element ctypes buffer is zero-initialised). -/
def readincrement (s : ChipState) (bus : List Nat) : ChipState × List Ev × Nat :=
  (s, [Ev.wcmd LCD_DATAREADINCREMENT, Ev.rdata 1], (bus.take 1).headD 0)

/-- RA6963.readonvariable (lines 393-397): issue the read-nonvariable
opcode, then read one byte from the bus and return it. -/
def readonvariable (s : ChipState) (bus : List Nat) : ChipState × List Ev × Nat :=
  (s, [Ev.wcmd LCD_DATAREADNONVARIABLE, Ev.rdata 1], (bus.take 1).headD 0)

/-- RA6963.readdecrement (lines 374-378): the method references the module
constant LCD_DATAREADDECREMENT; Python resolves that name before any bus
call, so an absent name raises NameError there and nothing is sent or
read. -/
def readdecrement (s : ChipState) (bus : List Nat) : Except PyErr (ChipState × List Ev × Nat) :=
  match lookupConst "LCD_DATAREADDECREMENT" with
  | none => .error .nameError
  | some op => .ok (s, [Ev.wcmd op, Ev.rdata 1], (bus.take 1).headD 0)

/-- One GPIO-level action of the bus engine. -/
inductive GpioEv where
  | setMode : Nat → Nat → GpioEv
  | write : Nat → Nat → GpioEv
  deriving DecidableEq

/-- A GPIO line number is defined when it lies in the legal range 0-27; an
out-of-range number means the line is unused (RA6963.py lines 46 and 166). -/
def pinDefined (p : Int) : Bool := decide (0 ≤ p) && decide (p ≤ 27)

/-- The pin assignment handed to the bus engine: eight data lines, the
register-select line, the enable/write line, and the optional read/write
line whose absence makes the bus write-only. -/
structure BusConfig where
  dataPins : List Int
  rscd : Int
  enwr : Int
  rwrd : Int
  deriving DecidableEq

/-- Modelled from the spec: the bus engine's read-data-block primitive lives
in parallel.so, which is not under src/.  Per the spec, on a bus whose
read/write line is unset it fails with UnsupportedOperation and touches no
GPIO pin; otherwise it drives register-select to the data level, pulses the
read strobe once per byte, and returns the sampled bytes (`chip` is the
byte stream the chip supplies). -/
def read_block (cfg : BusConfig) (chip : List Nat) (count : Nat) :
    Except PyErr (List Nat) × List GpioEv :=
  if pinDefined cfg.rwrd then
    (.ok (chip.take count),
     GpioEv.write cfg.rscd.toNat 1 :: List.replicate count (GpioEv.write cfg.rwrd.toNat 0))
  else
    (.error .unsupportedOperation, [])

/-- Modelled from the spec: the bus engine's read-status-register primitive
lives in parallel.so, which is not under src/.  Per the spec, on a bus
whose read/write line is unset it fails with UnsupportedOperation and
touches no GPIO pin; otherwise it performs the read protocol with
register-select at the command level and returns the status byte. -/
def read_register (cfg : BusConfig) (status : Nat) : Except PyErr Nat × List GpioEv :=
  if pinDefined cfg.rwrd then
    (.ok status,
     [GpioEv.write cfg.rscd.toNat 0, GpioEv.write cfg.rwrd.toNat 0])
  else
    (.error .unsupportedOperation, [])

/-- Sample instance state: a 240-pixel-wide display, reset on GPIO 17, no
custom address triple, the hardware and software default flag bytes. -/
def sampleState : ChipState :=
  { pixx := 240, rst := 17, addr := none,
    textaddress := 0x0000, graphicaddress := 0x1000, cgaddress := 0x7800,
    _displaymode := 0, _modeset := 0 }

/-- The low 11 bits of a number are its remainder mod 0x0800. -/
theorem and_mask_2047 (c : Nat) : c &&& 0x07FF = c % 0x0800 := by
  have h := Nat.and_pow_two_sub_one_eq_mod c 11
  norm_num at h
  exact h

/-- Folding the little-endian byte list most-significant-last recovers the
encoded value mod 2^16. -/
theorem le16_foldr (v : Nat) :
    (le16 v).foldr (fun b a => a * 256 + b) 0 = v % 65536 := by
  simp only [le16, List.foldr]
  omega

/-- Bit `i` of `pyAndNot v f` is bit `i` of `v` with bit `i` of `f` cleared. -/
theorem pyAndNot_testBit (v f i : Nat) :
    (pyAndNot v f).testBit i = (v.testBit i && !(f.testBit i)) := by
  simp only [pyAndNot, Nat.testBit_and, Nat.testBit_xor]
  cases v.testBit i <;> cases f.testBit i <;> rfl

/-- C3: writeincrement, writedecrement and writeonvariable each write their
single data byte first and then issue the matching opcode, while
readincrement and readonvariable issue their opcode first, then read one
byte from the bus, and return that byte to the caller. -/
theorem single_byte_transfer_order (s : ChipState) (v x : Nat) (rest : List Nat) :
    writeincrement s v = (s, [Ev.wdata [v % 256], Ev.wcmd LCD_DATAWRITEINCREMENT]) ∧
    writedecrement s v = (s, [Ev.wdata [v % 256], Ev.wcmd LCD_DATAWRITEDECREMENT]) ∧
    writeonvariable s v = (s, [Ev.wdata [v % 256], Ev.wcmd LCD_DATAWRITENONVARIABLE]) ∧
    readincrement s (x :: rest) = (s, [Ev.wcmd LCD_DATAREADINCREMENT, Ev.rdata 1], x) ∧
    readonvariable s (x :: rest) = (s, [Ev.wcmd LCD_DATAREADNONVARIABLE, Ev.rdata 1], x) := by
  refine ⟨rfl, rfl, rfl, ?_, ?_⟩ <;> simp [readincrement, readonvariable]

/-- C8: the module defines LCD_DATAEREADDECREMENT but not the name
LCD_DATAREADDECREMENT that readdecrement references, so every call to
readdecrement raises NameError before any bus operation: it never returns a
byte and never issues an opcode. -/
theorem readdecrement_name_error (s : ChipState) (bus : List Nat) :
    lookupConst "LCD_DATAREADDECREMENT" = none ∧
    lookupConst "LCD_DATAEREADDECREMENT" = some 0xC2 ∧
    readdecrement s bus = .error .nameError := by
  refine ⟨by decide, by decide, ?_⟩
  simp [readdecrement, show lookupConst "LCD_DATAREADDECREMENT" = none by decide]

/-- Counterexample to C9 as stated: after cursormove on a default instance
(writecommand's unspecified c_int return taken as 0 here), the stored
display-mode attribute holds the int 0 — not None — and a subsequent
cursorblink call succeeds, performing its bitwise update and sending the
result with the display-mode opcode instead of raising TypeError. -/
theorem cursormove_then_cursorblink_succeeds :
    (cursormove sampleState true 0).1._displaymode = 0 ∧
    cursorblink (cursormove sampleState true 0).1 true =
      ({ sampleState with _displaymode := 1 }, [Ev.wcmd 0x91]) := by
  decide

/-- C9 amended: cursormove assigns the int returned by writecommand
(ctypes' default c_int restype, value unspecified and modelled as the
argument r) to the stored display-mode attribute after sending the
cursor-auto-moving opcode, clobbering the tracked display-mode state;
subsequent cursorblink, cursordisplay and displaymode calls raise no error:
they apply their bitwise update to that int and send the result with the
display-mode opcode. -/
theorem cursormove_clobbers_displaymode (s : ChipState) (mv b bt bg : Bool) (r : Nat) :
    (cursormove s mv r).1._displaymode = r ∧
    (cursormove s mv r).2 =
      [Ev.wcmd (LCD_CURSORAUTOMOVING ||| (if mv then 0x00 else 0x01))] ∧
    cursorblink (cursormove s mv r).1 b =
      ({ (cursormove s mv r).1 with _displaymode := cursorblinkByte r b },
       [Ev.wcmd (LCD_DISPLAYMODE ||| cursorblinkByte r b)]) ∧
    cursordisplay (cursormove s mv r).1 b =
      ({ (cursormove s mv r).1 with _displaymode := cursordisplayByte r b },
       [Ev.wcmd (LCD_DISPLAYMODE ||| cursordisplayByte r b)]) ∧
    displaymode (cursormove s mv r).1 bt bg =
      ({ (cursormove s mv r).1 with _displaymode := displaymodeByte r bt bg },
       [Ev.wcmd (LCD_DISPLAYMODE ||| displaymodeByte r bt bg)]) := by
  cases mv <;> simp [cursormove, cursorblink, cursordisplay, displaymode]

/-- C10: setcursor sends exactly two data bytes encoding
(256*y + x) mod 2^16 little-endian, followed by the set-cursor-pointer
opcode, truncating silently and modifying no ChipState field. -/
theorem setcursor_encoding (s : ChipState) (xaddr yaddr : Int) :
    (setcursor s xaddr yaddr).1 = s ∧
    (setcursor s xaddr yaddr).2 =
      [Ev.wdata (le16 ((256 * yaddr + xaddr) % 65536).toNat),
       Ev.wcmd LCD_SETCURSORPOINTER] ∧
    (le16 ((256 * yaddr + xaddr) % 65536).toNat).length = 2 ∧
    (le16 ((256 * yaddr + xaddr) % 65536).toNat).all (fun b => decide (b < 256)) = true ∧
    (le16 ((256 * yaddr + xaddr) % 65536).toNat).foldr (fun b a => a * 256 + b) 0 =
      ((256 * yaddr + xaddr) % 65536).toNat := by
  refine ⟨rfl, rfl, rfl, ?_, ?_⟩
  · simp only [le16, List.all_cons, List.all_nil, Bool.and_true, Bool.and_eq_true,
      decide_eq_true_eq]
    omega
  · rw [le16_foldr]
    have hlt : ((256 * yaddr + xaddr) % 65536).toNat < 65536 := by omega
    exact Nat.mod_eq_of_lt hlt

/-- Bit `i` of a power of two is false away from its exponent. -/
theorem testBit_two_pow_ne {k i : Nat} (h : k ≠ i) : (2 ^ k : Nat).testBit i = false := by
  simp [Nat.testBit_two_pow, h]

/-- Bit `i` after OR-ing in a single-bit flag. -/
theorem testBit_or_flag (x k i : Nat) :
    (x ||| 2 ^ k).testBit i = (x.testBit i || decide (k = i)) := by
  rw [Nat.testBit_or, Nat.testBit_two_pow]

/-- Bit `i` after clearing a single-bit flag. -/
theorem testBit_andNot_flag (x k i : Nat) :
    (pyAndNot x (2 ^ k)).testBit i = (x.testBit i && !(decide (k = i))) := by
  rw [pyAndNot_testBit, Nat.testBit_two_pow]

/-- The startup trace always ends with the 2-byte offset word followed by
the set-offset-register opcode, and the word encodes the final stored cg
address shifted right by 11. -/
theorem startup_trace_split (s : ChipState) :
    ∃ pre, (startup s).2 =
      pre ++ [Ev.wdata (le16 ((startup s).1.cgaddress >>> 11)),
              Ev.wcmd LCD_SETOFFSETREGISTER] := by
  refine ⟨[Ev.gpio s.rst 0, Ev.gpio s.rst 1,
    Ev.wdata (le16 (loadedAddr s).1), Ev.wcmd LCD_SETTEXTHOMEADDRESS,
    Ev.wdata (le16 (s.pixx / 8)), Ev.wcmd LCD_SETTEXTAREA,
    Ev.wdata (le16 (loadedAddr s).2.1), Ev.wcmd LCD_SETGRAPHICHOMEADDRESS,
    Ev.wdata (le16 (s.pixx / 8)), Ev.wcmd LCD_SETGRAPHICAREA] ++
    (if (loadedAddr s).2.2 &&& 0x07FF > 0 then [Ev.warn] else []), ?_⟩
  simp only [startup]

/-- C1: startup rounds a cg address that is not a multiple of 0x0800 down to
address &&& 0xF800, storing that and surfacing a warning, while an aligned
address is stored unchanged with no warning; the bytes sent with the
set-offset-register opcode are the stored address shifted right by 11 as a
little-endian 16-bit word. -/
theorem cg_offset_rounding (s : ChipState) (t g c : Nat)
    (h : s.addr = some (t, g, c)) :
    (c % 0x0800 ≠ 0 →
      (startup s).1.cgaddress = c &&& 0xF800 ∧ Ev.warn ∈ (startup s).2) ∧
    (c % 0x0800 = 0 →
      (startup s).1.cgaddress = c ∧ Ev.warn ∉ (startup s).2) ∧
    (∃ pre, (startup s).2 =
      pre ++ [Ev.wdata (le16 ((startup s).1.cgaddress >>> 11)),
              Ev.wcmd LCD_SETOFFSETREGISTER]) ∧
    (le16 ((startup s).1.cgaddress >>> 11)).foldr (fun b a => a * 256 + b) 0 =
      ((startup s).1.cgaddress >>> 11) % 65536 := by
  have hm := and_mask_2047 c
  by_cases hc : c % 0x0800 = 0
  · have hcond : ¬ (c &&& 0x07FF > 0) := by omega
    exact ⟨fun hne => absurd hc hne,
           fun _ => ⟨by simp [startup, loadedAddr, h, hcond], by simp [startup, loadedAddr, h, hcond]⟩,
           startup_trace_split s, le16_foldr _⟩
  · have hcond : c &&& 0x07FF > 0 := by omega
    exact ⟨fun _ => ⟨by simp [startup, loadedAddr, h, hcond], by simp [startup, loadedAddr, h, hcond]⟩,
           fun h0 => absurd h0 hc,
           startup_trace_split s, le16_foldr _⟩

/-- Witness for C1 at concrete inputs: cg address 0x1003 is stored as 0x1000
with a warning; 0x1800 is stored unchanged with no warning. -/
theorem cg_offset_rounding_witness :
    ((startup { sampleState with addr := some (0, 0x1000, 0x1003) }).1.cgaddress = 0x1000 ∧
      Ev.warn ∈ (startup { sampleState with addr := some (0, 0x1000, 0x1003) }).2) ∧
    ((startup { sampleState with addr := some (0, 0x1000, 0x1800) }).1.cgaddress = 0x1800 ∧
      Ev.warn ∉ (startup { sampleState with addr := some (0, 0x1000, 0x1800) }).2) := by
  constructor
  · have h := cg_offset_rounding { sampleState with addr := some (0, 0x1000, 0x1003) }
      0 0x1000 0x1003 rfl
    have h1 := h.1 (by decide)
    exact ⟨h1.1.trans (by decide), h1.2⟩
  · have h := cg_offset_rounding { sampleState with addr := some (0, 0x1000, 0x1800) }
      0 0x1000 0x1800 rfl
    exact h.2.1 (by decide)

/-- C5: startup is idempotent on the stored text, graphic and cg addresses:
a second consecutive startup leaves them as the first one did. -/
theorem startup_idempotent_addresses (s : ChipState) :
    (startup (startup s).1).1.textaddress = (startup s).1.textaddress ∧
    (startup (startup s).1).1.graphicaddress = (startup s).1.graphicaddress ∧
    (startup (startup s).1).1.cgaddress = (startup s).1.cgaddress := by
  obtain ⟨px, r, ad, ta, ga, ca, dm, ms⟩ := s
  rcases ad with _ | ⟨t, g, c⟩
  · exact ⟨rfl, rfl, rfl⟩
  · exact ⟨rfl, rfl, rfl⟩

/-- Counterexample to C4 as stated: after settexthome 0x1234 on a default
instance, startup does not send the changed address; it resets the stored
text address to the default 0x0000 and sends that. -/
theorem startup_discards_settexthome :
    (settexthome sampleState 0x1234).1.textaddress = 0x1234 ∧
    (startup (settexthome sampleState 0x1234).1).1.textaddress = 0x0000 ∧
    Ev.wdata (le16 0x1234) ∉ (startup (settexthome sampleState 0x1234).1).2 ∧
    Ev.wdata (le16 0x0000) ∈ (startup (settexthome sampleState 0x1234).1).2 := by
  decide

/-- C4 amended: startup's behaviour is independent of address changes made
through settexthome and setgraphichome; it re-derives the text and graphic
home addresses from the constructor-supplied addr triple, or the defaults
0x0000 and 0x1000 when none was given, and sends those. -/
theorem startup_resends_configured_addresses (s : ChipState) (v w : Nat) :
    startup (settexthome s v).1 = startup s ∧
    startup (setgraphichome s w).1 = startup s ∧
    (s.addr = none →
      (startup s).1.textaddress = 0x0000 ∧ (startup s).1.graphicaddress = 0x1000 ∧
      (startup s).2.take 8 =
        [Ev.gpio s.rst 0, Ev.gpio s.rst 1,
         Ev.wdata (le16 0x0000), Ev.wcmd LCD_SETTEXTHOMEADDRESS,
         Ev.wdata (le16 (s.pixx / 8)), Ev.wcmd LCD_SETTEXTAREA,
         Ev.wdata (le16 0x1000), Ev.wcmd LCD_SETGRAPHICHOMEADDRESS]) ∧
    (∀ t g c, s.addr = some (t, g, c) →
      (startup s).1.textaddress = t ∧ (startup s).1.graphicaddress = g ∧
      (startup s).2.take 8 =
        [Ev.gpio s.rst 0, Ev.gpio s.rst 1,
         Ev.wdata (le16 t), Ev.wcmd LCD_SETTEXTHOMEADDRESS,
         Ev.wdata (le16 (s.pixx / 8)), Ev.wcmd LCD_SETTEXTAREA,
         Ev.wdata (le16 g), Ev.wcmd LCD_SETGRAPHICHOMEADDRESS]) := by
  refine ⟨?_, ?_, ?_, ?_⟩
  · obtain ⟨px, r, ad, ta, ga, ca, dm, ms⟩ := s
    rfl
  · obtain ⟨px, r, ad, ta, ga, ca, dm, ms⟩ := s
    rfl
  · intro h
    exact ⟨by simp [startup, loadedAddr, h], by simp [startup, loadedAddr, h], by simp [startup, loadedAddr, h]⟩
  · intro t g c h
    exact ⟨by simp [startup, loadedAddr, h], by simp [startup, loadedAddr, h], by simp [startup, loadedAddr, h]⟩

/-- Witness for the amended C4 on a default instance: startup after
settexthome 0x1234 behaves as startup alone, and sends the default text
home 0x0000. -/
theorem startup_resends_configured_addresses_witness :
    startup (settexthome sampleState 0x1234).1 = startup sampleState ∧
    (startup sampleState).1.textaddress = 0x0000 ∧
    (startup sampleState).2.take 8 =
      [Ev.gpio 17 0, Ev.gpio 17 1,
       Ev.wdata (le16 0x0000), Ev.wcmd LCD_SETTEXTHOMEADDRESS,
       Ev.wdata (le16 30), Ev.wcmd LCD_SETTEXTAREA,
       Ev.wdata (le16 0x1000), Ev.wcmd LCD_SETGRAPHICHOMEADDRESS] := by
  have h := startup_resends_configured_addresses sampleState 0x1234 1
  have h3 := h.2.2.1 rfl
  exact ⟨h.1, h3.1, h3.2.2⟩

/-- Counterexample to C2 as stated: cursormove is one of the listed setters,
yet on a state whose display-mode byte is 5 (with writecommand's
unspecified c_int return taken as 0) it overwrites the stored byte with
that returned int, changing bits 0 and 2 at once rather than mutating only
a relevant flag bit by bitwise set/clear, and its single write_command
carries the cursor-auto-moving opcode 0x60, not the stored byte OR'd with
the display-mode opcode. -/
theorem cursormove_not_bitwise_flag_update :
    (cursormove { sampleState with _displaymode := 5 } true 0).1._displaymode = 0 ∧
    ((cursormove { sampleState with _displaymode := 5 } true 0).1._displaymode).testBit 0 ≠
      (5 : Nat).testBit 0 ∧
    ((cursormove { sampleState with _displaymode := 5 } true 0).1._displaymode).testBit 2 ≠
      (5 : Nat).testBit 2 ∧
    (cursormove { sampleState with _displaymode := 5 } true 0).2 = [Ev.wcmd 0x60] ∧
    Ev.wcmd (LCD_DISPLAYMODE |||
        (cursormove { sampleState with _displaymode := 5 } true 0).1._displaymode) ∉
      (cursormove { sampleState with _displaymode := 5 } true 0).2 := by
  decide

/-- C2 amended: the flag setters other than cursormove (cursorblink,
cursordisplay, displaymode, externalcg, modeset) each mutate only their
relevant flag bit or bits of the stored mode-set or display-mode byte and
send the full updated byte OR'd with its opcode in a single write_command;
cursormove instead sends the cursor-auto-moving opcode and overwrites the
stored display-mode byte with the int returned by writecommand. -/
theorem flag_setters_update_single_bits (s : ChipState) (b bt bg : Bool)
    (mode : Nat) :
    (cursorblink s b = ({ s with _displaymode := cursorblinkByte s._displaymode b },
        [Ev.wcmd (LCD_DISPLAYMODE ||| cursorblinkByte s._displaymode b)]) ∧
      (cursorblinkByte s._displaymode b).testBit 0 = b ∧
      ∀ i, i ≠ 0 →
        (cursorblinkByte s._displaymode b).testBit i = s._displaymode.testBit i) ∧
    (cursordisplay s b = ({ s with _displaymode := cursordisplayByte s._displaymode b },
        [Ev.wcmd (LCD_DISPLAYMODE ||| cursordisplayByte s._displaymode b)]) ∧
      (cursordisplayByte s._displaymode b).testBit 1 = b ∧
      ∀ i, i ≠ 1 →
        (cursordisplayByte s._displaymode b).testBit i = s._displaymode.testBit i) ∧
    (displaymode s bt bg =
        ({ s with _displaymode := displaymodeByte s._displaymode bt bg },
        [Ev.wcmd (LCD_DISPLAYMODE ||| displaymodeByte s._displaymode bt bg)]) ∧
      (displaymodeByte s._displaymode bt bg).testBit 2 = bt ∧
      (displaymodeByte s._displaymode bt bg).testBit 3 = bg ∧
      ∀ i, i ≠ 2 → i ≠ 3 →
        (displaymodeByte s._displaymode bt bg).testBit i = s._displaymode.testBit i) ∧
    (externalcg s b = ({ s with _modeset := externalcgByte s._modeset b },
        [Ev.wcmd (LCD_MODESET ||| externalcgByte s._modeset b)]) ∧
      (externalcgByte s._modeset b).testBit 3 = b ∧
      ∀ i, i ≠ 3 → (externalcgByte s._modeset b).testBit i = s._modeset.testBit i) ∧
    (modeset s mode = ({ s with _modeset := modesetByte s._modeset mode },
        [Ev.wcmd (LCD_MODESET ||| modesetByte s._modeset mode)]) ∧
      ∀ i, i ≠ 0 → i ≠ 1 → i ≠ 2 →
        (modesetByte s._modeset mode).testBit i = s._modeset.testBit i) := by
  refine ⟨⟨rfl, ?_, ?_⟩,
          ⟨rfl, ?_, ?_⟩,
          ⟨rfl, ?_, ?_, ?_⟩,
          ⟨rfl, ?_, ?_⟩,
          ⟨rfl, ?_⟩⟩
  · cases b <;>
      simp only [cursorblinkByte, show LCD_CURSORBLINK = 2 ^ 0 from rfl,
        Bool.false_eq_true, if_false, if_true, testBit_or_flag, testBit_andNot_flag] <;>
      simp
  · intro i hi
    cases b <;>
      simp only [cursorblinkByte, show LCD_CURSORBLINK = 2 ^ 0 from rfl,
        Bool.false_eq_true, if_false, if_true, testBit_or_flag, testBit_andNot_flag] <;>
      simp [Ne.symm hi]
  · cases b <;>
      simp only [cursordisplayByte, show LCD_CURSORON = 2 ^ 1 from rfl,
        Bool.false_eq_true, if_false, if_true, testBit_or_flag, testBit_andNot_flag] <;>
      simp
  · intro i hi
    cases b <;>
      simp only [cursordisplayByte, show LCD_CURSORON = 2 ^ 1 from rfl,
        Bool.false_eq_true, if_false, if_true, testBit_or_flag, testBit_andNot_flag] <;>
      simp [Ne.symm hi]
  · cases bt <;> cases bg <;>
      simp only [displaymodeByte, show LCD_TEXTON = 2 ^ 2 from rfl,
        show LCD_GRAPHICON = 2 ^ 3 from rfl,
        Bool.false_eq_true, if_false, if_true, testBit_or_flag, testBit_andNot_flag] <;>
      simp
  · cases bt <;> cases bg <;>
      simp only [displaymodeByte, show LCD_TEXTON = 2 ^ 2 from rfl,
        show LCD_GRAPHICON = 2 ^ 3 from rfl,
        Bool.false_eq_true, if_false, if_true, testBit_or_flag, testBit_andNot_flag] <;>
      simp
  · intro i hi2 hi3
    cases bt <;> cases bg <;>
      simp only [displaymodeByte, show LCD_TEXTON = 2 ^ 2 from rfl,
        show LCD_GRAPHICON = 2 ^ 3 from rfl,
        Bool.false_eq_true, if_false, if_true, testBit_or_flag, testBit_andNot_flag] <;>
      simp [Ne.symm hi2, Ne.symm hi3]
  · cases b <;>
      simp only [externalcgByte, show LCD_EXTERNALCGROM = 2 ^ 3 from rfl,
        Bool.false_eq_true, if_false, if_true, testBit_or_flag, testBit_andNot_flag] <;>
      simp
  · intro i hi
    cases b <;>
      simp only [externalcgByte, show LCD_EXTERNALCGROM = 2 ^ 3 from rfl,
        Bool.false_eq_true, if_false, if_true, testBit_or_flag, testBit_andNot_flag] <;>
      simp [Ne.symm hi]
  · intro i hi0 hi1 hi2
    have h3 : 3 ≤ i := by omega
    have hpow : (8 : Nat) ≤ 2 ^ i :=
      calc (8 : Nat) = 2 ^ 3 := by norm_num
        _ ≤ 2 ^ i := Nat.pow_le_pow_right (by norm_num) h3
    have hsmall : ∀ f : Nat, f < 8 → Nat.testBit f i = false := fun f hf =>
      Nat.testBit_lt_two_pow (lt_of_lt_of_le hf hpow)
    have hor : ∀ x f : Nat, f < 8 → (x ||| f).testBit i = x.testBit i := by
      intro x f hf
      rw [Nat.testBit_or, hsmall f hf]
      simp
    have hbase : (pyAndNot s._modeset
        (LCD_OR ||| LCD_EXOR ||| LCD_AND ||| LCD_TEXTATTRIBUTE)).testBit i =
        s._modeset.testBit i := by
      rw [pyAndNot_testBit,
        hsmall (LCD_OR ||| LCD_EXOR ||| LCD_AND ||| LCD_TEXTATTRIBUTE) (by decide)]
      simp
    simp only [modesetByte]
    split_ifs <;>
      simp only [hor _ LCD_OR (by decide), hor _ LCD_EXOR (by decide),
        hor _ LCD_AND (by decide), hor _ LCD_TEXTATTRIBUTE (by decide), hbase]

/-- Witness for the amended C2 on a default instance: cursorblink true
stores and sends the updated byte, bit 0 is set, bit 5 is untouched, and
modeset 2 stores and sends its updated byte. -/
theorem flag_setters_update_single_bits_witness :
    cursorblink sampleState true =
      ({ sampleState with _displaymode := cursorblinkByte 0 true },
        [Ev.wcmd (LCD_DISPLAYMODE ||| cursorblinkByte 0 true)]) ∧
    (cursorblinkByte 0 true).testBit 0 = true ∧
    (cursorblinkByte 0 true).testBit 5 = Nat.testBit 0 5 ∧
    modeset sampleState 2 =
      ({ sampleState with _modeset := modesetByte 0 2 },
       [Ev.wcmd (LCD_MODESET ||| modesetByte 0 2)]) := by
  have h := flag_setters_update_single_bits sampleState true true true 2
  exact ⟨h.1.1, h.1.2.1, h.1.2.2 5 (by decide), h.2.2.2.2.1⟩

/-- C6: definechars positions the address pointer at
cgaddress + 128*8 + location*8 (so never below the 128 reserved slots),
issues the auto-write opcode, writes each glyph as exactly 8 bytes in
most-significant-byte-first order, and issues the auto-reset opcode; with
cg base 0x7800 and location 0 the pointer is set to 0x7C00. -/
theorem definechars_layout (s : ChipState) (chars : List Nat) (loc w : Nat) :
    (definechars s chars loc).2 =
      [Ev.wdata (le16 (s.cgaddress + 128 * 8 + loc * 8)), Ev.wcmd LCD_SETADDRESSPOINTER,
       Ev.wcmd LCD_SETDATAAUTOWRITE]
      ++ chars.map (fun i => Ev.wdata (be64 i))
      ++ [Ev.wcmd LCD_AUTORESET] ∧
    (be64 w).length = 8 ∧
    (be64 w).foldl (fun a b => a * 256 + b) 0 = w % 18446744073709551616 ∧
    s.cgaddress + 128 * 8 ≤ s.cgaddress + 128 * 8 + loc * 8 ∧
    (definechars { s with cgaddress := 0x7800 } chars 0).2.head? =
      some (Ev.wdata (le16 0x7C00)) := by
  refine ⟨rfl, rfl, ?_, Nat.le_add_right _ _, rfl⟩
  simp only [be64, List.foldl]
  omega

/-- C7: on a bus configured without a read/write line, both bus-level read
primitives fail with UnsupportedOperation and perform no GPIO action. -/
theorem writeonly_bus_reads_fail (cfg : BusConfig) (chip : List Nat)
    (count status : Nat) (h : pinDefined cfg.rwrd = false) :
    read_block cfg chip count = (.error .unsupportedOperation, []) ∧
    read_register cfg status = (.error .unsupportedOperation, []) := by
  simp [read_block, read_register, h]

/-- Witness for C7 at a concrete write-only configuration (read/write line
set to -1, the driver's default for an absent rd pin). -/
theorem writeonly_bus_reads_fail_witness :
    read_block { dataPins := [7, 8, 9, 10, 11, 12, 13, 14], rscd := 2, enwr := 3, rwrd := -1 }
        [5] 1 = (.error .unsupportedOperation, []) ∧
    read_register { dataPins := [7, 8, 9, 10, 11, 12, 13, 14], rscd := 2, enwr := 3, rwrd := -1 }
        0 = (.error .unsupportedOperation, []) :=
  writeonly_bus_reads_fail _ [5] 1 0 (by decide)

end RA6963
